import Mathlib

/-!
Shallow embedding of `src/script.js` (stellar parallax visualization and
star-size model), together with theorems settling the spec claims.

JavaScript numbers are modelled as real numbers; DOM and canvas calls are
modelled as pure outputs (a `Scene` record for `draw`, a pair of readings
for `updateData`), and the closure-captured mutable variables `earthAngle`
and `isDragging` of `initParallaxSim` become an explicit `ParallaxState`
threaded through the event handlers.
-/

namespace HTM

/-- The constant `orbitRadius = 100` of `initParallaxSim`. -/
def orbitRadius : ℝ := 100

/-- The constant `maxAngle = 0.76` of `updateData` (arcseconds for Proxima
Centauri). -/
def maxAngle : ℝ := 0.76

/-- The constant `starDist = 300` of `initParallaxSim`. -/
def starDist : ℝ := 300

/-- The sun-center x coordinate: `centerX = canvas.width / 2`. -/
noncomputable def centerX (w : ℝ) : ℝ := w / 2

/-- The sun-center y coordinate: `centerY = canvas.height * 0.8`. -/
noncomputable def centerY (h : ℝ) : ℝ := h * 0.8

/-- The closure state of `initParallaxSim`: `let earthAngle = 0` (radians
around the sun) and `let isDragging = false`. -/
structure ParallaxState where
  earthAngle : ℝ
  isDragging : Bool

/-- JavaScript `Math.atan2(dy, dx)`: the argument of the complex number
`dx + dy*i`, in `(-π, π]`, with `atan2(0, 0) = 0`. -/
noncomputable def atan2 (dy dx : ℝ) : ℝ := Complex.arg ⟨dx, dy⟩

/-- The state change of `updateEarthPos(mouseX, mouseY)`:
`dx = mouseX - centerX; dy = mouseY - centerY; earthAngle = Math.atan2(dy, dx)`. -/
noncomputable def updateEarthPos (w h : ℝ) (s : ParallaxState) (mouseX mouseY : ℝ) :
    ParallaxState :=
  { s with earthAngle := atan2 (mouseY - centerY h) (mouseX - centerX w) }

/-- `updateData`: `const earthX = Math.cos(earthAngle) * orbitRadius`. -/
noncomputable def earthX (angle : ℝ) : ℝ := Real.cos angle * orbitRadius

/-- `updateData`: `const currentAngle = Math.abs((earthX / orbitRadius) * maxAngle)`. -/
noncomputable def currentAngle (angle : ℝ) : ℝ := |earthX angle / orbitRadius * maxAngle|

/-- `updateData`: `if (currentAngle > 0.01) dist = 1 / currentAngle; else dist = 100`. -/
noncomputable def dist (angle : ℝ) : ℝ :=
  if currentAngle angle > 0.01 then 1 / currentAngle angle else 100

/-- `updateData` as a state-passing routine: it assigns to no closure
variable and emits the two displayed readings. -/
noncomputable def updateData (s : ParallaxState) : ParallaxState × (ℝ × ℝ) :=
  (s, (currentAngle s.earthAngle, dist s.earthAngle))

/-- JavaScript truncation toward zero, as used by the remainder operator. -/
noncomputable def jsTrunc (x : ℝ) : ℤ := if 0 ≤ x then ⌊x⌋ else ⌈x⌉

/-- The JavaScript remainder `a % b`: `a - b * trunc(a / b)` (sign of the
dividend), on real-number operands. -/
noncomputable def jsMod (a b : ℝ) : ℝ := a - b * jsTrunc (a / b)

/-- One background star of `draw`:
`rx = (Math.sin(i) * 10000) % canvas.width`,
`ry = (Math.cos(i) * 10000) % (canvas.height / 2)`, plotted at
`(Math.abs(rx), Math.abs(ry))`. -/
noncomputable def bgStar (w h : ℝ) (i : ℕ) : ℝ × ℝ :=
  (|jsMod (Real.sin i * 10000) w|, |jsMod (Real.cos i * 10000) (h / 2)|)

/-- The geometry that `draw` renders to the canvas on one frame. -/
structure Scene where
  bgStars : List (ℝ × ℝ)
  sunPos : ℝ × ℝ
  earthPos : ℝ × ℝ
  starPos : ℝ × ℝ
  projPos : ℝ × ℝ

/-- `draw` as a state-passing routine: it assigns to no closure variable and
emits the frame geometry (background stars, sun, Earth at the squashed
ellipse parametrization, target star at `(centerX, centerY - 150)`, and the
apparent position extrapolated by `scale = 2.5` along the Earth-to-star
vector). -/
noncomputable def draw (w h : ℝ) (s : ParallaxState) : ParallaxState × Scene :=
  let cx := centerX w
  let cy := centerY h
  let ex := cx + Real.cos s.earthAngle * orbitRadius
  let ey := cy + Real.sin s.earthAngle * (orbitRadius * 0.3)
  let starX := cx
  let starY := cy - 150
  let vecX := starX - ex
  let vecY := starY - ey
  let scale := (2.5 : ℝ)
  (s, { bgStars := (List.range 50).map (bgStar w h)
        sunPos := (cx, cy)
        earthPos := (ex, ey)
        starPos := (starX, starY)
        projPos := (ex + vecX * scale, ey + vecY * scale) })

/-- The pointer events wired up by `initParallaxSim`, with surface-local
coordinates. -/
inductive Event where
  | mousedown (x y : ℝ)
  | mousemove (x y : ℝ)
  | mouseup

/-- What one handler invocation writes to its sinks: a canvas frame from
`draw`, or the two text readings from `updateData`. -/
inductive Output where
  | frame (sc : Scene)
  | readings (angleArcsec distParsecs : ℝ)

/-- The full body of `updateEarthPos`: set the angle, then `draw()` and
`updateData()`. -/
noncomputable def updateEarthPosRun (w h : ℝ) (s : ParallaxState) (mx my : ℝ) :
    ParallaxState × List Output :=
  let s1 := updateEarthPos w h s mx my
  let p1 := draw w h s1
  let p2 := updateData p1.1
  (p2.1, [Output.frame p1.2, Output.readings p2.2.1 p2.2.2])

/-- One step of the event-handler system of `initParallaxSim`:
`mousedown` sets `isDragging = true` and calls `updateEarthPos(x, y)`;
`mousemove` returns immediately when `!isDragging` and otherwise calls
`updateEarthPos(x, y)`; `mouseup` sets `isDragging = false`. -/
noncomputable def step (w h : ℝ) (s : ParallaxState) : Event → ParallaxState × List Output
  | Event.mousedown x y => updateEarthPosRun w h { s with isDragging := true } x y
  | Event.mousemove x y =>
      if s.isDragging then updateEarthPosRun w h s x y else (s, [])
  | Event.mouseup => ({ s with isDragging := false }, [])

/-- The constant `T_sun = 5800` of `updateStar`. -/
def T_sun : ℝ := 5800

/-- `updateStar`: `const T_rel = T / T_sun`. -/
noncomputable def T_rel (T : ℝ) : ℝ := T / T_sun

/-- `updateStar`: `const R_rel = Math.sqrt(L) / (T_rel * T_rel)`. -/
noncomputable def R_rel (L T : ℝ) : ℝ := Real.sqrt L / (T_rel T * T_rel T)

/-- The sequential clamp of `updateStar`:
`let pxSize = 100 * R_rel; if (pxSize < 5) pxSize = 5; if (pxSize > 300) pxSize = 300;`. -/
noncomputable def pxSize (L T : ℝ) : ℝ :=
  let p0 := 100 * R_rel L T
  let p1 := if p0 < 5 then 5 else p0
  if p1 > 300 then 300 else p1

/-- The three colors `updateStar` picks for the radial gradient and glow. -/
structure StarColors where
  colorStart : String
  colorEnd : String
  glow : String

/-- The temperature-band color selection of `updateStar`:
`if (T < 4000) ... else if (T < 6000) ... else if (T < 8000) ... else ...`. -/
noncomputable def starColors (T : ℝ) : StarColors :=
  if T < 4000 then ⟨"#ff8844", "#cc2200", "#ff2200"⟩
  else if T < 6000 then ⟨"#ffdd44", "#cc9900", "#ffaa00"⟩
  else if T < 8000 then ⟨"#ffffff", "#cccccc", "#ccccff"⟩
  else ⟨"#aaddff", "#4488ff", "#0088ff"⟩

/-- C1: for every angle, the displayed parallax angle equals
`abs(cos(angle) * maxAngle)` and lies in the closed interval `[0, maxAngle]`. -/
theorem currentAngle_abs_cos (a : ℝ) :
    currentAngle a = |Real.cos a * maxAngle| ∧
    0 ≤ currentAngle a ∧ currentAngle a ≤ maxAngle := by
  have h1 : currentAngle a = |Real.cos a * maxAngle| := by
    unfold currentAngle earthX orbitRadius
    congr 1
    ring
  refine ⟨h1, abs_nonneg _, ?_⟩
  rw [h1, abs_mul]
  calc |Real.cos a| * |maxAngle| ≤ 1 * |maxAngle| := by
        gcongr
        exact Real.abs_cos_le_one a
    _ = maxAngle := by unfold maxAngle; norm_num

/-- C2: the displayed distance is `1 / currentAngle` exactly when
`currentAngle > 0.01`, and the sentinel `100` exactly when
`currentAngle ≤ 0.01`; the division is only taken in the first case. -/
theorem dist_threshold (a : ℝ) :
    (0.01 < currentAngle a → dist a = 1 / currentAngle a) ∧
    (currentAngle a ≤ 0.01 → dist a = 100) := by
  unfold dist
  split_ifs with hgt
  · exact ⟨fun _ => rfl, fun hle => absurd hgt (not_lt.mpr hle)⟩
  · exact ⟨fun hlt => absurd hlt hgt, fun _ => rfl⟩

/-- Witness for C2 at `angle = 0`: there `currentAngle = 0.76 > 0.01`, so the
distance is the reciprocal. -/
theorem dist_threshold_witness :
    0.01 < currentAngle 0 ∧ dist 0 = 1 / currentAngle 0 := by
  have hc : currentAngle 0 = 0.76 := by
    unfold currentAngle earthX orbitRadius maxAngle
    rw [Real.cos_zero]
    norm_num
  have hgt : (0.01 : ℝ) < currentAngle 0 := by rw [hc]; norm_num
  exact ⟨hgt, (dist_threshold 0).1 hgt⟩

/-- C7: the displayed parallax angle is even in the angle and invariant
under `a ↦ π - a`, inherited from cosine and the absolute value. -/
theorem currentAngle_symm (a : ℝ) :
    currentAngle a = currentAngle (-a) ∧
    currentAngle a = currentAngle (Real.pi - a) := by
  unfold currentAngle earthX
  constructor
  · rw [Real.cos_neg]
  · rw [Real.cos_pi_sub,
      show -Real.cos a * orbitRadius / orbitRadius * maxAngle
          = -(Real.cos a * orbitRadius / orbitRadius * maxAngle) by ring,
      abs_neg]

/-- C3: for luminosity `L ≥ 0` and temperature `T > 0` the relative radius
is `sqrt(L) / (T/5800)^2`, and the reference star `L = 1, T = 5800` has
relative radius exactly `1`. -/
theorem R_rel_formula :
    (∀ L T : ℝ, 0 ≤ L → 0 < T → R_rel L T = Real.sqrt L / (T / 5800) ^ 2) ∧
    R_rel 1 5800 = 1 := by
  constructor
  · intro L T _ _
    unfold R_rel T_rel T_sun
    rw [sq]
  · unfold R_rel T_rel T_sun
    rw [Real.sqrt_one]
    norm_num

/-- Witness for C3 at the reference star `L = 1, T = 5800`. -/
theorem R_rel_formula_witness :
    (0 : ℝ) ≤ 1 ∧ (0 : ℝ) < 5800 ∧
    R_rel 1 5800 = Real.sqrt 1 / ((5800 : ℝ) / 5800) ^ 2 :=
  ⟨by norm_num, by norm_num, R_rel_formula.1 1 5800 (by norm_num) (by norm_num)⟩

/-- Helper: in the `pxSize` clamp the raw value `100 * R_rel` is cut to
`[5, 300]`, whatever it is. -/
theorem pxSize_cases (L T : ℝ) :
    (100 * R_rel L T < 5 → pxSize L T = 5) ∧
    (300 < 100 * R_rel L T → pxSize L T = 300) ∧
    (5 ≤ 100 * R_rel L T → 100 * R_rel L T ≤ 300 → pxSize L T = 100 * R_rel L T) ∧
    5 ≤ pxSize L T ∧ pxSize L T ≤ 300 := by
  unfold pxSize
  dsimp only
  rcases lt_or_le (100 * R_rel L T) 5 with h5 | h5
  · rw [if_pos h5, if_neg (by norm_num)]
    exact ⟨fun _ => rfl, fun h => absurd (h5.trans (by norm_num)) (not_lt.mpr h.le),
      fun h _ => absurd h (not_le.mpr h5), le_refl _, by norm_num⟩
  · rw [if_neg (not_lt.mpr h5)]
    rcases lt_or_le (300 : ℝ) (100 * R_rel L T) with h3 | h3
    · rw [if_pos h3]
      exact ⟨fun h => absurd h (not_lt.mpr h5), fun _ => rfl,
        fun _ h => absurd h3 (not_lt.mpr h), by norm_num, le_refl _⟩
    · rw [if_neg (not_lt.mpr h3)]
      exact ⟨fun h => absurd h (not_lt.mpr h5), fun h => absurd h (not_lt.mpr h3),
        fun _ _ => rfl, h5, h3⟩

/-- C4: for valid slider input (`L ≥ 0`, `T > 0`) the visual size is
`100 * R_rel` clamped to `[5, 300]`: `5` below the range, `300` above it,
the raw value inside it, and it always lies in `[5, 300]`. -/
theorem pxSize_clamped (L T : ℝ) (_hL : 0 ≤ L) (_hT : 0 < T) :
    (100 * R_rel L T < 5 → pxSize L T = 5) ∧
    (300 < 100 * R_rel L T → pxSize L T = 300) ∧
    (5 ≤ 100 * R_rel L T → 100 * R_rel L T ≤ 300 → pxSize L T = 100 * R_rel L T) ∧
    5 ≤ pxSize L T ∧ pxSize L T ≤ 300 :=
  pxSize_cases L T

/-- Witness for C4 at the reference star `L = 1, T = 5800`, where the raw
size `100` is inside the clamp range. -/
theorem pxSize_clamped_witness :
    (0 : ℝ) ≤ 1 ∧ (0 : ℝ) < 5800 ∧ 5 ≤ pxSize 1 5800 ∧ pxSize 1 5800 ≤ 300 :=
  ⟨by norm_num, by norm_num, (pxSize_clamped 1 5800 (by norm_num) (by norm_num)).2.2.2.1,
    (pxSize_clamped 1 5800 (by norm_num) (by norm_num)).2.2.2.2⟩

/-- C5: the gradient and glow colors follow the four temperature bands,
inclusive at each stated lower bound and exclusive at the upper transition;
in particular `T = 4000` is in band 2, `T = 6000` in band 3 and `T = 8000`
in band 4. -/
theorem starColors_bands (T : ℝ) :
    (T < 4000 → starColors T = ⟨"#ff8844", "#cc2200", "#ff2200"⟩) ∧
    (4000 ≤ T → T < 6000 → starColors T = ⟨"#ffdd44", "#cc9900", "#ffaa00"⟩) ∧
    (6000 ≤ T → T < 8000 → starColors T = ⟨"#ffffff", "#cccccc", "#ccccff"⟩) ∧
    (8000 ≤ T → starColors T = ⟨"#aaddff", "#4488ff", "#0088ff"⟩) ∧
    starColors 4000 = ⟨"#ffdd44", "#cc9900", "#ffaa00"⟩ ∧
    starColors 6000 = ⟨"#ffffff", "#cccccc", "#ccccff"⟩ ∧
    starColors 8000 = ⟨"#aaddff", "#4488ff", "#0088ff"⟩ := by
  refine ⟨?_, ?_, ?_, ?_, ?_, ?_, ?_⟩
  · intro h1
    unfold starColors
    rw [if_pos h1]
  · intro h1 h2
    unfold starColors
    rw [if_neg (not_lt.mpr h1), if_pos h2]
  · intro h1 h2
    unfold starColors
    rw [if_neg (not_lt.mpr (by linarith)), if_neg (not_lt.mpr h1), if_pos h2]
  · intro h1
    unfold starColors
    rw [if_neg (not_lt.mpr (by linarith)), if_neg (not_lt.mpr (by linarith)),
      if_neg (not_lt.mpr h1)]
  · unfold starColors
    norm_num
  · unfold starColors
    norm_num
  · unfold starColors
    norm_num

/-- Witness for C5 at `T = 3999`, inside the first band. -/
theorem starColors_bands_witness :
    (3999 : ℝ) < 4000 ∧ starColors 3999 = ⟨"#ff8844", "#cc2200", "#ff2200"⟩ :=
  ⟨by norm_num, (starColors_bands 3999).1 (by norm_num)⟩

/-- Helper: `Math.atan2` is invariant under scaling both components by a
positive factor. -/
theorem atan2_pos_smul {t : ℝ} (ht : 0 < t) (dy dx : ℝ) :
    atan2 (t * dy) (t * dx) = atan2 dy dx := by
  unfold atan2
  have hz : (⟨t * dx, t * dy⟩ : ℂ) = (t : ℂ) * ⟨dx, dy⟩ := by
    apply Complex.ext <;>
      simp [Complex.mul_re, Complex.mul_im]
  rw [hz, Complex.arg_real_mul _ ht]

/-- C6: a press or drag at pointer position `(mx, my)` sets the angle to
`atan2(my - cy, mx - cx)` for the fixed sun anchor `(cx, cy)`, and the
resulting angle depends only on the direction from the anchor to the
pointer, not on the distance: any positive rescaling of the offset yields
the same angle. -/
theorem updateEarthPos_atan2 (w h : ℝ) (s : ParallaxState) (mx my : ℝ) :
    (updateEarthPos w h s mx my).earthAngle
      = atan2 (my - centerY h) (mx - centerX w) ∧
    ∀ t : ℝ, 0 < t →
      (updateEarthPos w h s (centerX w + t * (mx - centerX w))
          (centerY h + t * (my - centerY h))).earthAngle
        = (updateEarthPos w h s mx my).earthAngle := by
  refine ⟨rfl, fun t ht => ?_⟩
  show atan2 (centerY h + t * (my - centerY h) - centerY h)
      (centerX w + t * (mx - centerX w) - centerX w)
    = atan2 (my - centerY h) (mx - centerX w)
  rw [show centerY h + t * (my - centerY h) - centerY h = t * (my - centerY h) by ring,
    show centerX w + t * (mx - centerX w) - centerX w = t * (mx - centerX w) by ring]
  exact atan2_pos_smul ht _ _

/-- Witness for C6: concrete canvas `400 × 300`, pointer `(10, 20)`,
rescaling factor `t = 2`. -/
theorem updateEarthPos_atan2_witness :
    (0 : ℝ) < 2 ∧
    (updateEarthPos 400 300 ⟨0, false⟩ (centerX 400 + 2 * (10 - centerX 400))
        (centerY 300 + 2 * (20 - centerY 300))).earthAngle
      = (updateEarthPos 400 300 ⟨0, false⟩ 10 20).earthAngle :=
  ⟨by norm_num, (updateEarthPos_atan2 400 300 ⟨0, false⟩ 10 20).2 2 (by norm_num)⟩

/-- C8: in the idle state (`isDragging = false`) a `mousemove` event is
ignored: the state is unchanged and no frame or reading is written. -/
theorem idle_mousemove_ignored (w h : ℝ) (s : ParallaxState) (x y : ℝ)
    (hidle : s.isDragging = false) :
    step w h s (Event.mousemove x y) = (s, []) := by
  unfold step
  rw [hidle]
  simp

/-- Witness for C8 at a concrete idle state and pointer position. -/
theorem idle_mousemove_ignored_witness :
    (ParallaxState.mk 0.5 false).isDragging = false ∧
    step 400 300 ⟨0.5, false⟩ (Event.mousemove 7 9) = (⟨0.5, false⟩, []) :=
  ⟨rfl, idle_mousemove_ignored 400 300 ⟨0.5, false⟩ 7 9 rfl⟩

/-- C9: the background star field drawn by `draw` is the same for any two
states (hence for any two frames and any angle values), and it is exactly
the trigonometric hash of the star index `i = 0..49`. -/
theorem bgStars_deterministic (w h : ℝ) (s1 s2 : ParallaxState) :
    (draw w h s1).2.bgStars = (draw w h s2).2.bgStars ∧
    (draw w h s1).2.bgStars = (List.range 50).map (fun i =>
      (|jsMod (Real.sin i * 10000) w|, |jsMod (Real.cos i * 10000) (h / 2)|)) :=
  ⟨rfl, rfl⟩

/-- C10: the derived-output routines `draw` and `updateData` leave the
component state (both `earthAngle` and `isDragging`) exactly as it was. -/
theorem draw_updateData_pure (w h : ℝ) (s : ParallaxState) :
    (draw w h s).1 = s ∧ (updateData s).1 = s :=
  ⟨rfl, rfl⟩

end HTM
